import Mathlib

/-!
Verification of the SWORDS-template-UP scripts against their specification.

Each namespace below is a shallow embedding of one Python script of the
repository (file names given per namespace).  Pure string/regex logic is
translated directly; HTTP effects are modelled by passing the script of
attempt outcomes explicitly (one list element per HTTP attempt), and the
per-row control flow of the CSV loops is modelled as a trace of actions.
-/

/-- A pandas cell value as the scripts see it: a string, the float NaN, or
some other non-string value (whose `str()` rendering is recorded, since
several scripts call `str` on the cell). -/
inductive Py where
  | pstr (s : String)
  | nan
  | pother (shown : String)
deriving DecidableEq

/-- Python `str()` of a cell value; `str(float("nan"))` is "nan". -/
def Py.pyStr : Py → String
  | .pstr s => s
  | .nan => "nan"
  | .pother r => r

namespace PyStr

/-! Character-list implementations of the Python string primitives the
scripts use (`strip`, `split`, `replace`, `startswith`, `endswith`,
`lower`).  They mirror the Python semantics and, unlike the corresponding
core String functions, evaluate inside the kernel. -/

/-- Python whitespace for `str.strip()` with no argument. -/
def isPySpace (c : Char) : Bool :=
  c == ' ' || c == '\t' || c == '\n' || c == '\r' || c == '\x0b' || c == '\x0c'

/-- Drop the characters of `cs` satisfying `p` from both ends. -/
def stripWhile (p : Char → Bool) (cs : List Char) : List Char :=
  ((cs.dropWhile p).reverse.dropWhile p).reverse

/-- Python `str.strip()`. -/
def pyStrip (s : String) : String := String.mk (stripWhile isPySpace s.data)

/-- Python `str.strip("/")`. -/
def pyStripSlashes (s : String) : String := String.mk (stripWhile (fun c => c == '/') s.data)

/-- Python `str.split(sep)` for a non-empty separator, on character lists:
`acc` holds the current field reversed.  Structural recursion on a fuel
argument so the kernel can evaluate it; every step consumes at least one
character, so fuel equal to the list length never runs out and the
fuel-exhausted branch is unreachable. -/
def splitOnAuxC (s0 : Char) (srest : List Char) : Nat → List Char → List Char → List (List Char)
  | _, [], acc => [acc.reverse]
  | 0, cs, acc => [acc.reverse ++ cs]
  | fuel + 1, c :: rest, acc =>
      if (s0 :: srest).isPrefixOf (c :: rest) then
        acc.reverse :: splitOnAuxC s0 srest fuel (rest.drop srest.length) []
      else splitOnAuxC s0 srest fuel rest (c :: acc)

/-- Python `str.split(sep)` (empty separators never occur in the source). -/
def pySplit (s : String) (sep : String) : List String :=
  match sep.data with
  | [] => [s]
  | c :: cs => (splitOnAuxC c cs s.data.length s.data []).map String.mk

/-- Python `str.replace(pat, repl)`: replace every non-overlapping
occurrence, scanning left to right.  Fuel as in `splitOnAuxC`. -/
def replaceAllC (p0 : Char) (prest : List Char) (repl : List Char) : Nat → List Char → List Char
  | _, [] => []
  | 0, cs => cs
  | fuel + 1, c :: rest =>
      if (p0 :: prest).isPrefixOf (c :: rest) then
        repl ++ replaceAllC p0 prest repl fuel (rest.drop prest.length)
      else c :: replaceAllC p0 prest repl fuel rest

/-- Python `str.replace(pat, repl)` (empty patterns never occur). -/
def pyReplace (s pat repl : String) : String :=
  match pat.data with
  | [] => s
  | c :: cs => String.mk (replaceAllC c cs repl.data s.data.length s.data)

/-- Python `str.startswith`. -/
def pyStartsWith (s pre : String) : Bool := pre.data.isPrefixOf s.data

/-- Python `str.endswith`. -/
def pyEndsWith (s suffix : String) : Bool := suffix.data.isSuffixOf s.data

/-- Python slicing `s[:-n]`. -/
def pyDropRight (s : String) (n : Nat) : String :=
  String.mk (s.data.take (s.data.length - n))

/-- Python `str.lower()` (the texts involved are ASCII). -/
def pyLower (s : String) : String := String.mk (s.data.map Char.toLower)

end PyStr

namespace PyUrl

/-- Result of `urllib.parse.urlparse` restricted to the three fields the
scripts read (scheme, netloc, path). -/
structure UrlParts where
  scheme : String
  netloc : String
  path : String
deriving DecidableEq

/-- Index of the first occurrence of `pat` in a character list, if any. -/
def findSubIdx (pat : List Char) : List Char → Option Nat
  | [] => if pat.isEmpty then some 0 else none
  | t@(_ :: rest) =>
      if pat.isPrefixOf t then some 0
      else (findSubIdx pat rest).map (· + 1)

/-- Whether `pat` occurs as a substring (Python `in` on strings). -/
def containsSub (pat : List Char) (hay : List Char) : Bool :=
  (findSubIdx pat hay).isSome

/-- A valid URL scheme per `urllib.parse`: a letter followed by letters,
digits, `+`, `-` or `.`. -/
def validScheme (s : List Char) : Bool :=
  match s with
  | [] => false
  | c :: rest => c.isAlpha && rest.all (fun d => d.isAlphanum || d == '+' || d == '-' || d == '.')

/-- `urllib.parse.urlparse`, faithful for the URL shapes the scripts meet:
with a valid scheme followed by `://`, the netloc runs to the next `/`,
`?` or `#` and the path to the next `?` or `#`; otherwise scheme and netloc
are empty and the whole string is the path. -/
def urlparse (u : String) : UrlParts :=
  match findSubIdx ("://".data) u.data with
  | some i =>
      let sch := u.data.take i
      if validScheme sch then
        let rest := u.data.drop (i + 3)
        let netloc := rest.takeWhile (fun c => !(c == '/' || c == '?' || c == '#'))
        let path := (rest.drop netloc.length).takeWhile (fun c => !(c == '?' || c == '#'))
        ⟨String.mk (sch.map Char.toLower), String.mk netloc, String.mk path⟩
      else ⟨"", "", u⟩
  | none => ⟨"", "", u⟩

end PyUrl

namespace PyRe

/-- Python regex word character `\w` over the ASCII texts the scripts scan. -/
def isWordChar (c : Char) : Bool := c.isAlphanum || c == '_'

/-- Case-insensitive character comparison (re.IGNORECASE). -/
def lowerEq (a b : Char) : Bool := a.toLower == b.toLower

/-- Whether `kw` is a case-insensitive prefix of `t`. -/
def prefixCI : List Char → List Char → Bool
  | [], _ => true
  | _ :: _, [] => false
  | k :: ks, c :: cs => lowerEq k c && prefixCI ks cs

/-- `re.search` of a literal keyword with re.IGNORECASE and no anchors:
plain case-insensitive substring search (the `(?i)test` patterns of
test_keywords.py). -/
def searchSubCI (kw : List Char) : List Char → Bool
  | [] => prefixCI kw []
  | t@(_ :: rest) => prefixCI kw t || searchSubCI kw rest

/-- Word/non-word transition used by `\b`; out of bounds counts non-word. -/
def boundary (a b : Option Char) : Bool :=
  (match a with | some c => isWordChar c | none => false)
    != (match b with | some c => isWordChar c | none => false)

/-- `re.search` of `\b kw \b` with re.IGNORECASE for a non-empty literal
keyword: some occurrence of `kw` whose two ends sit on word boundaries. -/
def searchWordCI (kw text : List Char) : Bool :=
  (List.range (text.length + 1)).any (fun i =>
    prefixCI kw (text.drop i)
    && boundary (if i == 0 then none else text.get? (i - 1)) (text.get? i)
    && boundary (text.get? (i + kw.length - 1)) (text.get? (i + kw.length)))

end PyRe

namespace TestKeywords

/-! Embedding of collect_variables/scripts/parse_readme/test_keywords.py. -/

/-- The two accepted GitHub hosts (`GITHUB_NETLOCS`). -/
def GITHUB_NETLOCS : List String := ["github.com", "www.github.com"]

/-- `RATE_LIMIT_SLEEP_SECONDS = 20 * 60`. -/
def RATE_LIMIT_SLEEP_SECONDS : Nat := 20 * 60

/-- `normalize_github_url`: None unless the value is a non-blank string
whose parse has an http or https scheme and a GitHub netloc; then the
stripped string itself. -/
def normalize_github_url (u : Py) : Option String :=
  match u with
  | .pstr s =>
      if PyStr.pyStrip s == "" then none
      else
        let p := PyUrl.urlparse (PyStr.pyStrip s)
        if !(p.scheme == "http" || p.scheme == "https") then none
        else if !(GITHUB_NETLOCS.contains p.netloc) then none
        else some (PyStr.pyStrip s)
  | _ => none

/-- `owner_repo_from_url`: first two non-empty path segments, with a
trailing ".git" stripped from the repository name. -/
def owner_repo_from_url (repo_url : String) : Option (String × String) :=
  let p := PyUrl.urlparse repo_url
  let parts := (PyStr.pySplit p.path "/").filter (fun x => !(x == ""))
  if parts.length < 2 then none
  else
    let owner := parts.getD 0 ""
    let repo0 := parts.getD 1 ""
    let repo := if PyStr.pyEndsWith repo0 ".git" then PyStr.pyDropRight repo0 4 else repo0
    some (owner, repo)

/-- `contains_keywords`: the subset of the substrings "test" and "testing"
found case-insensitively in the text (the source applies `re.search` with
`(?i)` and no word anchors, i.e. substring matching). -/
def contains_keywords (text : String) : List String :=
  (if PyRe.searchSubCI ("test".data) text.data then ["test"] else [])
    ++ (if PyRe.searchSubCI ("testing".data) text.data then ["testing"] else [])

/-- One attempt of the callable wrapped by `safe_api_call`: a value, or an
HTTPError carrying its status and whether the message contains
"rate limit" and "exceeded". -/
inductive ApiOutcome (α : Type) where
  | success (v : α)
  | httpError (status : Nat) (msgHasRateLimit : Bool) (msgHasExceeded : Bool)

/-- `safe_api_call` run against a script of attempt outcomes.  Returns the
list of sleep durations performed and either the value or the re-raised
error; `none` when the outcome script is exhausted while still retrying
(the source loop is unbounded). -/
def safe_api_call {α : Type} : List (ApiOutcome α) → Option (List Nat × Except (Nat × Bool × Bool) α)
  | [] => none
  | .success v :: _ => some ([], .ok v)
  | .httpError st rl ex :: rest =>
      if st == 403 && rl && ex then
        match safe_api_call rest with
        | some (sleeps, r) => some (RATE_LIMIT_SLEEP_SECONDS :: sleeps, r)
        | none => none
      else some ([], .error (st, rl, ex))

end TestKeywords

namespace ReadmeContent

/-! Embedding of collect_variables/scripts/parse_readme/readme_content.py. -/

/-- `is_github_url`: a string value starting with `https://github.com/`. -/
def is_github_url (url : Py) : Bool :=
  match url with
  | .pstr s => PyStr.pyStartsWith s "https://github.com/"
  | _ => false

/-- `get_owner_repo_from_url`: pieces 3 and 4 of the slash-split of the
stripped URL, with every occurrence of ".git" deleted from the repository
name; `(None, None)` when the URL fails `is_github_url` or is too short. -/
def get_owner_repo_from_url (url : Py) : Option String × Option String :=
  if is_github_url url then
    match url with
    | .pstr s =>
        let parts := PyStr.pySplit (PyStr.pyStrip s) "/"
        if parts.length ≥ 5 then
          (some (parts.getD 3 ""), some (PyStr.pyReplace (parts.getD 4 "") ".git" ""))
        else (none, none)
    | _ => (none, none)
  else (none, none)

/-- One attempt of the request body of `fetch_readme_content`: the README
text when both requests succeed and a README entry exists in the contents
listing, a successful listing without a README entry (the loop falls
through to `return ""`), an HTTPError carrying the status and the
`X-RateLimit-Remaining` header, or any other exception. -/
inductive FetchOutcome where
  | ok (readmeText : String)
  | okNoReadme
  | httpError (status : Nat) (rateLimitRemaining : Option String)
  | otherErr

/-- `fetch_readme_content` run against a script of attempt outcomes: the
list of sleep durations performed and the returned string.  A 403 whose
`X-RateLimit-Remaining` header is "0" sleeps 1200 seconds and recurses
with the same owner, repo and token; every other error logs and returns
the empty string.  `none` when the outcome script is exhausted while
still retrying (the recursion is unbounded). -/
def fetch_readme_content : List FetchOutcome → Option (List Nat × String)
  | [] => none
  | .ok text :: _ => some ([], text)
  | .okNoReadme :: _ => some ([], "")
  | .httpError st remaining :: rest =>
      if st == 403 && remaining == some "0" then
        match fetch_readme_content rest with
        | some (sleeps, r) => some (1200 :: sleeps, r)
        | none => none
      else some ([], "")
  | .otherErr :: _ => some ([], "")

/-- One input row of `process_csv`: the `html_url` cell and the outcome
script for its fetch attempts. -/
structure RowInput where
  url : Py
  attempts : List FetchOutcome

/-- The README string `process_csv` appends for one row: "" for NaN cells,
non-GitHub URLs, unparsable URLs and failed fetches, the fetched text
otherwise. -/
def process_row (r : RowInput) : String :=
  match r.url with
  | .nan => ""
  | u =>
      let s := PyStr.pyStrip u.pyStr
      if !(is_github_url (.pstr s)) then ""
      else
        match get_owner_repo_from_url (.pstr s) with
        | (some ow, some rp) =>
            if ow == "" || rp == "" then ""
            else
              match fetch_readme_content r.attempts with
              | some (_, text) => text
              | none => ""
        | _ => ""

/-- The `readme` column produced by the row loop of `process_csv`: one
entry per input row, in order, regardless of per-row failures. -/
def process_csv_rows (rows : List RowInput) : List String :=
  rows.map process_row

end ReadmeContent

namespace EnrichRepoData

/-! Embedding of collect_variables/scripts/github_api/enrich_repo_data.py. -/

/-- Python falsiness of an optional environment string (`not GITHUB_TOKEN`):
missing or empty. -/
def falsyEnv : Option String → Bool
  | none => true
  | some s => s == ""

/-- The module-level token check: `raise ValueError(...)` when the token is
missing or empty, before any CSV row is read. -/
def tokenStartup (token : Option String) : Except String Unit :=
  if falsyEnv token then
    .error "GitHub token not found. Please set GITHUB_TOKEN in the .env file."
  else .ok ()

/-- One attempt of the request body of `get_repo_metadata`: the metadata
on success, an `HTTP403ForbiddenError`, or any other exception. -/
inductive MetaOutcome (μ : Type) where
  | ok (m : μ)
  | forbidden403
  | otherErr

/-- `get_repo_metadata` run against a script of attempt outcomes: the list
of sleep durations performed and the returned value (`none` models the
`return None` of the final except clause).  An `HTTP403ForbiddenError`
sleeps 15 minutes and retries the same URL; any other exception logs and
returns `None` at once. -/
def get_repo_metadata {μ : Type} : List (MetaOutcome μ) → Option (List Nat × Option μ)
  | [] => none
  | .ok m :: _ => some ([], some m)
  | .forbidden403 :: rest =>
      match get_repo_metadata rest with
      | some (sleeps, r) => some (15 * 60 :: sleeps, r)
      | none => none
  | .otherErr :: _ => some ([], none)

end EnrichRepoData

namespace KeywordsEvalReadme

/-! Embedding of collect_variables/scripts/parse_readme/keywords_eval_readme.py. -/

/-- `search_keywords`: the sublist of `keyword_list` whose members match
`\b keyword \b` case-insensitively in the text (`re.escape` is the
identity on the configured keywords, which are letters and spaces). -/
def search_keywords (text : String) (keyword_list : List String) : List String :=
  keyword_list.filter (fun kw => PyRe.searchWordCI kw.data text.data)

end KeywordsEvalReadme

namespace ReadmeEval

/-! Embedding of collect_variables/scripts/parse_readme/readme_eval.py. -/

/-- `check_keywords`: true when some keyword matches `\b keyword \b`
case-insensitively in the text. -/
def check_keywords (text : String) (keywords : List String) : Bool :=
  keywords.any (fun kw => PyRe.searchWordCI kw.data text.data)

end ReadmeEval

namespace ContinuousIntegration

/-! Embedding of collect_variables/scripts/soft_dev_pract/continious_integration.py. -/

/-- How one row of the `main` loop plays out: a NaN or blank URL, a
non-GitHub URL (both skipped before any API use), a repository probed
successfully (with the CI tool detected, if any), or a `GithubException`
raised while accessing the repository (with whether its message says the
API rate limit was exceeded). -/
inductive RowOutcome where
  | nanUrl
  | nonGithub
  | ok (ciTool : Option String)
  | err (isRateLimit : Bool)

/-- Observable actions of the row loop: probing repository `i` (ending in
success or in a `GithubException`), sleeping, and writing the accumulated
data frame to the output CSV. -/
inductive Act where
  | probeOk (i : Nat)
  | probeFail (i : Nat)
  | sleep (seconds : Nat)
  | save
deriving DecidableEq

/-- The action trace of the `main` row loop from row index `i` on: a
successful probe is followed at once by `to_csv`; a failed probe runs
`handle_rate_limit_error` (which sleeps 20 minutes only on a rate-limit
message) and continues WITHOUT saving; after the loop the data frame is
saved once more. -/
def ciSteps : Nat → List RowOutcome → List Act
  | _, [] => [.save]
  | i, .nanUrl :: rest => ciSteps (i + 1) rest
  | i, .nonGithub :: rest => ciSteps (i + 1) rest
  | i, .ok _ :: rest => .probeOk i :: .save :: ciSteps (i + 1) rest
  | i, .err rl :: rest =>
      .probeFail i :: ((if rl then [Act.sleep (20 * 60)] else []) ++ ciSteps (i + 1) rest)

/-- The full trace of `main`. -/
def ciTrace (outs : List RowOutcome) : List Act := ciSteps 0 outs

/-- `main` with the token drawn from the environment: the source reads
`GITHUB_TOKEN` and builds `Github(token)` without ever validating it, so
the row loop is the same whether or not a token is present. -/
def ciMain (_token : Option String) (outs : List RowOutcome) : List Act := ciTrace outs

/-- Checker for "a save happens after each probed repository before the
next one is probed": scans the trace with a flag saying a probe is still
waiting for a save. -/
def savedBetweenProbes : Bool → List Act → Bool
  | _, [] => true
  | _, Act.save :: r => savedBetweenProbes false r
  | p, Act.sleep _ :: r => savedBetweenProbes p r
  | p, Act.probeOk _ :: r => !p && savedBetweenProbes true r
  | p, Act.probeFail _ :: r => !p && savedBetweenProbes true r

/-- Checker for the weaker property "a save happens after each
SUCCESSFULLY probed repository before the next probe". -/
def savedAfterSuccesses : Bool → List Act → Bool
  | _, [] => true
  | _, Act.save :: r => savedAfterSuccesses false r
  | p, Act.sleep _ :: r => savedAfterSuccesses p r
  | p, Act.probeOk _ :: r => !p && savedAfterSuccesses true r
  | p, Act.probeFail _ :: r => !p && savedAfterSuccesses false r

/-- Whether a trace ends with a save. -/
def endsWithSave : List Act → Bool
  | [] => false
  | [a] => a == Act.save
  | _ :: r => endsWithSave r

/-- Number of saves in a trace. -/
def countSaves (tr : List Act) : Nat := tr.countP (fun a => a == Act.save)

/-- Number of probes in a trace. -/
def countProbes (tr : List Act) : Nat :=
  tr.countP (fun a => match a with | .probeOk _ => true | .probeFail _ => true | _ => false)

end ContinuousIntegration

namespace CheckContributing

/-! Embedding of collect_variables/scripts/soft_dev_pract/documentation_practices/check_contributing_conduct.py. -/

/-- `load_credentials`: raises `ValueError` when `GITHUB_USER` or
`GITHUB_TOKEN` is missing or empty, before the CSV is read. -/
def load_credentials : Option String → Option String → Except String (String × String)
  | some u, some t =>
      if u == "" || t == "" then
        .error "GITHUB_USER or GITHUB_TOKEN not found. Please ensure the .env file is properly configured."
      else .ok (u, t)
  | _, _ =>
      .error "GITHUB_USER or GITHUB_TOKEN not found. Please ensure the .env file is properly configured."

/-- The two result cells of one input row, as `_submit_tasks` tests them
with `pd.notnull` (a None/NaN cell is `none`, a stored boolean is
`some b`). -/
structure CCRow where
  has_contributing : Option Bool
  has_code_of_conduct : Option Bool

/-- `pd.notnull` on both result cells. -/
def rowFilled (r : CCRow) : Bool :=
  r.has_contributing.isSome && r.has_code_of_conduct.isSome

/-- The loop body of `_submit_tasks` from row index `i` on.  For EVERY row
it first runs `check_rate_limit`, which performs one GitHub API request
(`api.rate_limit.get()`); only then does it skip rows whose two result
cells are already non-null.  Returns the number of rate-limit API calls
made and the indices of the rows submitted to `process_repository` (each
of which triggers further content API calls). -/
def submitGo : Nat → List CCRow → Nat × List Nat
  | _, [] => (0, [])
  | i, r :: rest =>
      let p := submitGo (i + 1) rest
      (p.1 + 1, if rowFilled r then p.2 else i :: p.2)

/-- `_submit_tasks` over the whole data frame. -/
def submit_tasks (rows : List CCRow) : Nat × List Nat := submitGo 0 rows

/-- The save actions of the `as_completed` loop of `process_repositories`:
`completed` is incremented per finished future and the data frame is
written only when `completed % 10 == 0` (`DEFAULT_BATCH_SIZE`), plus one
final write after the loop.  `n` is the number of pending futures. -/
def ccSteps : Nat → Nat → List ContinuousIntegration.Act
  | _, 0 => [ContinuousIntegration.Act.save]
  | c, n + 1 =>
      (if (c + 1) % 10 == 0 then [ContinuousIntegration.Act.save] else [])
        ++ ccSteps (c + 1) n

/-- The save trace of `process_repositories` for `n` processed futures. -/
def ccTrace (n : Nat) : List ContinuousIntegration.Act := ccSteps 0 n

end CheckContributing

namespace CheckFolderNames

/-! Embedding of collect_variables/scripts/soft_dev_pract/testing_practices/check_folder_name_conventions.py. -/

/-- Exceptions `analyze_repo` can leak: its try/except clauses catch only
`RequestException` and `HTTPError`, not the `IndexError` of
`url.split("github.com/")[1]`. -/
inductive PyExc where
  | indexError
deriving DecidableEq

/-- What the URL-handling prefix of `analyze_repo` decides before any API
data is used: skip the row (returning two empty lists) or proceed with
the extracted `owner/repo` full name. -/
inductive UrlStep where
  | skipNonGithub
  | proceed (repoFullName : String)
deriving DecidableEq

/-- The URL-handling prefix of `analyze_repo`: return `([], [])` when the
URL does not contain "github.com"; otherwise take element 1 of
`url.split("github.com/")`, which raises `IndexError` when "github.com/"
does not occur, and strip surrounding slashes. -/
def analyze_repo_url (url : String) : Except PyExc UrlStep :=
  if !(PyUrl.containsSub ("github.com".data) url.data) then .ok .skipNonGithub
  else
    match PyStr.pySplit url "github.com/" with
    | _ :: second :: _ => .ok (.proceed (PyStr.pyStripSlashes second))
    | _ => .error .indexError

end CheckFolderNames

namespace CmakeCrawler

/-! Embedding of collect_variables/scripts/soft_dev_pract/dependency_practices/cmake_crawler.py.
The fields of the parse result that no claim touches (languages,
tests_found) are omitted; the dependency extraction, which reads each
file line by line and applies `FIND_PACKAGE_REGEX` to each line, is
embedded in full. -/

/-- A dependency record: package name and version, "Any" when the
`find_package` call pins no version. -/
structure Dep where
  name : String
  version : String
deriving DecidableEq

/-- The three capture groups of `FIND_PACKAGE_REGEX` the source reads:
group 2 (package name), group 3 (dotted version digits, optional) and
group 4 (the literal REQUIRED, as a flag). -/
structure FPMatch where
  name : String
  version : Option String
  required : Bool
deriving DecidableEq

/-- Attempt to match `FIND_PACKAGE_REGEX` at the start of `cs` (the
leading `\s*` of the pattern does not affect the captures): the literal
`find_package` or `FIND_PACKAGE`, optional spaces, `(`, optional spaces,
a non-empty run of characters other than whitespace and `)` (the name),
optional spaces, an optional run of digits and dots (the version),
optional spaces, an optional literal `REQUIRED`.  Greedy matching needs
no backtracking here because everything after the name is optional. -/
def matchFindPackageAt (cs : List Char) : Option FPMatch :=
  let afterKw : Option (List Char) :=
    if ("find_package".data).isPrefixOf cs then some (cs.drop 12)
    else if ("FIND_PACKAGE".data).isPrefixOf cs then some (cs.drop 12)
    else none
  match afterKw with
  | none => none
  | some r1 =>
      match r1.dropWhile PyStr.isPySpace with
      | '(' :: r3 =>
          let r4 := r3.dropWhile PyStr.isPySpace
          let name := r4.takeWhile (fun c => !(PyStr.isPySpace c || c == ')'))
          if name.isEmpty then none
          else
            let r5 := r4.drop name.length
            let r6 := r5.dropWhile PyStr.isPySpace
            let ver := r6.takeWhile (fun c => c.isDigit || c == '.')
            let r7 := r6.drop ver.length
            let r8 := r7.dropWhile PyStr.isPySpace
            some ⟨String.mk name,
                  if ver.isEmpty then none else some (String.mk ver),
                  ("REQUIRED".data).isPrefixOf r8⟩
      | _ => none

/-- `re.search(FIND_PACKAGE_REGEX, line)`: the match at the leftmost
position where one exists. -/
def searchFindPackage : List Char → Option FPMatch
  | [] => none
  | t@(_ :: rest) =>
      match matchFindPackageAt t with
      | some m => some m
      | none => searchFindPackage rest

/-- The accumulator of the dependency pass of `parse_cmake_files`. -/
structure CmakeScan where
  dependencies : List Dep
  opt_dependencies : List Dep
  uses_gtest : Bool
  uses_catch2 : Bool
deriving DecidableEq

/-- The per-line body of the dependency pass: on a `find_package` match,
append the dependency to the REQUIRED or the optional list, and set the
GTest/Catch2 flags when the lowercased package name says so. -/
def lineStep (st : CmakeScan) (line : String) : CmakeScan :=
  match searchFindPackage line.data with
  | none => st
  | some m =>
      let dep : Dep := ⟨m.name, m.version.getD "Any"⟩
      let st1 :=
        if m.required then { st with dependencies := st.dependencies ++ [dep] }
        else { st with opt_dependencies := st.opt_dependencies ++ [dep] }
      let st2 := if PyStr.pyLower m.name == "gtest" then { st1 with uses_gtest := true } else st1
      if PyStr.pyLower m.name == "catch2" then { st2 with uses_catch2 := true } else st2

/-- Processing one CMake file, line by line. -/
def fileStep (st : CmakeScan) (lines : List String) : CmakeScan :=
  lines.foldl lineStep st

/-- `pd.DataFrame(...).drop_duplicates().to_dict("records")`: drop exact
duplicates, keeping the first occurrence. -/
def dedupKeepFirst (l : List Dep) : List Dep :=
  l.foldl (fun acc d => if acc.contains d then acc else acc ++ [d]) []

/-- The JSON object `parse_cmake_files` returns, restricted to the fields
the claims touch. -/
structure CmakeResult where
  has_cmakelists : Bool
  dependencies : List Dep
  opt_dependencies : List Dep
  uses_gtest : Bool
  uses_catch2 : Bool
deriving DecidableEq

/-- `parse_cmake_files` over the contents of the given files (`files` is
the list of their line lists): `has_cmakelists = bool(file_paths)`, the
deduplicated dependency lists, and the test-framework flags. -/
def parse_cmake_files (files : List (List String)) : CmakeResult :=
  let st := files.foldl fileStep ⟨[], [], false, false⟩
  ⟨!files.isEmpty, dedupKeepFirst st.dependencies, dedupKeepFirst st.opt_dependencies,
   st.uses_gtest, st.uses_catch2⟩

/-- `has_pinned_dependency`: some dependency of the list has a version
other than "Any". -/
def has_pinned_dependency (dep_list : List Dep) : Bool :=
  dep_list.any (fun d => !(d.version == "Any"))

/-- The three dependency columns `process_csv_and_handle_repos` writes for
one repository row from the parse result `data`: note that the
`..._pinned_req_...` column is computed from `data["opt_dependencies"]`
and the `..._pinned_opt_...` column from `data["dependencies"]`. -/
structure CrawlerRowFlags where
  has_cmake_dependencies : Bool
  has_cmake_pinned_req_deps : Bool
  has_cmake_pinned_opt_deps : Bool
deriving DecidableEq

/-- Lines 371 to 374 of the source: the row flags as written to the CSV. -/
def setCrawlerRowFlags (data : CmakeResult) : CrawlerRowFlags :=
  ⟨!data.dependencies.isEmpty || !data.opt_dependencies.isEmpty,
   has_pinned_dependency data.opt_dependencies,
   has_pinned_dependency data.dependencies⟩

end CmakeCrawler

/-! Helper lemmas. -/

/-- `safe_api_call` consumes any run of rate-limit errors, one sleep each. -/
theorem safe_api_call_replicate {α : Type} (v : α) (n : Nat)
    (rest : List (TestKeywords.ApiOutcome α)) :
    TestKeywords.safe_api_call
        (List.replicate n (.httpError 403 true true) ++ (.success v :: rest))
      = some (List.replicate n TestKeywords.RATE_LIMIT_SLEEP_SECONDS, .ok v) := by
  induction n with
  | zero => simp [TestKeywords.safe_api_call]
  | succ k ih => simp [List.replicate_succ, TestKeywords.safe_api_call, ih]

/-- `fetch_readme_content` consumes any run of quota-exhausted 403s, one
1200-second sleep each. -/
theorem fetch_readme_replicate (text : String) (n : Nat)
    (rest : List ReadmeContent.FetchOutcome) :
    ReadmeContent.fetch_readme_content
        (List.replicate n (.httpError 403 (some "0")) ++ (.ok text :: rest))
      = some (List.replicate n 1200, text) := by
  induction n with
  | zero => simp [ReadmeContent.fetch_readme_content]
  | succ k ih => simp [List.replicate_succ, ReadmeContent.fetch_readme_content, ih]

/-! Claim C1. -/

/-- Claim C1: in both cited wrappers, a quota-exhausted response (an HTTP
403 rate-limit error for `safe_api_call`; a 403 whose
X-RateLimit-Remaining header is "0" for `fetch_readme_content`) causes a
sleep of the fixed script duration followed by a retry of the same
request, with no bound on the number of retries; when exactly one
quota-exhausted response precedes a success, exactly one sleep occurs
before the successful value is returned. -/
theorem claim_C1_quota_retry :
    (∀ (α : Type) (v : α) (rest : List (TestKeywords.ApiOutcome α)),
        TestKeywords.safe_api_call (.httpError 403 true true :: .success v :: rest)
          = some ([TestKeywords.RATE_LIMIT_SLEEP_SECONDS], .ok v))
    ∧ (∀ (α : Type) (v : α) (n : Nat),
        TestKeywords.safe_api_call
            (List.replicate n (.httpError 403 true true) ++ [.success v])
          = some (List.replicate n TestKeywords.RATE_LIMIT_SLEEP_SECONDS, .ok v))
    ∧ (∀ (text : String) (rest : List ReadmeContent.FetchOutcome),
        ReadmeContent.fetch_readme_content
            (.httpError 403 (some "0") :: .ok text :: rest)
          = some ([1200], text))
    ∧ (∀ (text : String) (n : Nat),
        ReadmeContent.fetch_readme_content
            (List.replicate n (.httpError 403 (some "0")) ++ [.ok text])
          = some (List.replicate n 1200, text)) := by
  refine ⟨?_, ?_, ?_, ?_⟩
  · intro α v rest
    exact safe_api_call_replicate v 1 rest
  · intro α v n
    exact safe_api_call_replicate v n []
  · intro text rest
    exact fetch_readme_replicate text 1 rest
  · intro text n
    exact fetch_readme_replicate text n []

/-! Claim C2. -/

/-- The row-loop trace is never empty (the final save is always there). -/
theorem ciSteps_ne_nil (outs : List ContinuousIntegration.RowOutcome) :
    ∀ i, ContinuousIntegration.ciSteps i outs ≠ [] := by
  induction outs with
  | nil => intro i; simp [ContinuousIntegration.ciSteps]
  | cons o rest ih =>
      intro i
      cases o <;> simp [ContinuousIntegration.ciSteps, ih]

/-- `endsWithSave` ignores a leading action when more actions follow. -/
theorem endsWithSave_cons (a : ContinuousIntegration.Act)
    (l : List ContinuousIntegration.Act) (h : l ≠ []) :
    ContinuousIntegration.endsWithSave (a :: l) = ContinuousIntegration.endsWithSave l := by
  cases l with
  | nil => exact absurd rfl h
  | cons b r => rfl

/-- Every successfully probed repository is saved before the next probe. -/
theorem savedAfterSuccesses_ciSteps (outs : List ContinuousIntegration.RowOutcome) :
    ∀ i, ContinuousIntegration.savedAfterSuccesses false
      (ContinuousIntegration.ciSteps i outs) = true := by
  induction outs with
  | nil => intro i; simp [ContinuousIntegration.ciSteps, ContinuousIntegration.savedAfterSuccesses]
  | cons o rest ih =>
      intro i
      cases o with
      | nanUrl => simpa [ContinuousIntegration.ciSteps] using ih (i + 1)
      | nonGithub => simpa [ContinuousIntegration.ciSteps] using ih (i + 1)
      | ok t =>
          simp [ContinuousIntegration.ciSteps, ContinuousIntegration.savedAfterSuccesses, ih (i + 1)]
      | err rl =>
          cases rl <;>
            simp [ContinuousIntegration.ciSteps, ContinuousIntegration.savedAfterSuccesses, ih (i + 1)]

/-- The row-loop trace ends with the final save. -/
theorem endsWithSave_ciSteps (outs : List ContinuousIntegration.RowOutcome) :
    ∀ i, ContinuousIntegration.endsWithSave (ContinuousIntegration.ciSteps i outs) = true := by
  induction outs with
  | nil => intro i; simp [ContinuousIntegration.ciSteps, ContinuousIntegration.endsWithSave]
  | cons o rest ih =>
      intro i
      cases o with
      | nanUrl => simpa [ContinuousIntegration.ciSteps] using ih (i + 1)
      | nonGithub => simpa [ContinuousIntegration.ciSteps] using ih (i + 1)
      | ok t =>
          show ContinuousIntegration.endsWithSave
            (.probeOk i :: .save :: ContinuousIntegration.ciSteps (i + 1) rest) = true
          rw [endsWithSave_cons _ _ (by simp),
            endsWithSave_cons _ _ (ciSteps_ne_nil rest (i + 1))]
          exact ih (i + 1)
      | err rl =>
          cases rl with
          | true =>
              show ContinuousIntegration.endsWithSave
                (.probeFail i :: .sleep (20 * 60) :: ContinuousIntegration.ciSteps (i + 1) rest)
                  = true
              rw [endsWithSave_cons _ _ (by simp),
                endsWithSave_cons _ _ (ciSteps_ne_nil rest (i + 1))]
              exact ih (i + 1)
          | false =>
              show ContinuousIntegration.endsWithSave
                (.probeFail i :: ContinuousIntegration.ciSteps (i + 1) rest) = true
              rw [endsWithSave_cons _ _ (ciSteps_ne_nil rest (i + 1))]
              exact ih (i + 1)

/-- The batch-saving trace is never empty. -/
theorem ccSteps_ne_nil (n : Nat) : ∀ c, CheckContributing.ccSteps c n ≠ [] := by
  induction n with
  | zero => intro c; simp [CheckContributing.ccSteps]
  | succ k ih =>
      intro c
      by_cases h : (c + 1) % 10 == 0 <;> simp [CheckContributing.ccSteps, h, ih]

/-- Counting the saves of the batch loop: one per multiple of 10 reached by
the completion counter, plus the final save. -/
theorem countSaves_ccSteps (n : Nat) :
    ∀ c, ContinuousIntegration.countSaves (CheckContributing.ccSteps c n) + c / 10
      = (c + n) / 10 + 1 := by
  induction n with
  | zero =>
      intro c
      simp [CheckContributing.ccSteps, ContinuousIntegration.countSaves]
      omega
  | succ k ih =>
      intro c
      have ihc := ih (c + 1)
      show ContinuousIntegration.countSaves
          ((if (c + 1) % 10 == 0 then [ContinuousIntegration.Act.save] else [])
            ++ CheckContributing.ccSteps (c + 1) k) + c / 10 = (c + (k + 1)) / 10 + 1
      rw [ContinuousIntegration.countSaves, List.countP_append]
      rw [ContinuousIntegration.countSaves] at ihc
      by_cases h : (c + 1) % 10 = 0
      · have hc : List.countP (fun a => a == ContinuousIntegration.Act.save)
            (if (c + 1) % 10 == 0 then [ContinuousIntegration.Act.save] else []) = 1 := by
          simp [h]
        rw [hc]
        omega
      · have hc : List.countP (fun a => a == ContinuousIntegration.Act.save)
            (if (c + 1) % 10 == 0 then [ContinuousIntegration.Act.save] else []) = 0 := by
          simp [h]
        rw [hc]
        omega

/-- The batch-saving trace ends with the final save. -/
theorem endsWithSave_ccSteps (n : Nat) :
    ∀ c, ContinuousIntegration.endsWithSave (CheckContributing.ccSteps c n) = true := by
  induction n with
  | zero => intro c; simp [CheckContributing.ccSteps, ContinuousIntegration.endsWithSave]
  | succ k ih =>
      intro c
      show ContinuousIntegration.endsWithSave
          ((if (c + 1) % 10 == 0 then [ContinuousIntegration.Act.save] else [])
            ++ CheckContributing.ccSteps (c + 1) k) = true
      by_cases h : (c + 1) % 10 = 0
      · have he : (if (c + 1) % 10 == 0 then [ContinuousIntegration.Act.save] else [])
            = [ContinuousIntegration.Act.save] := by simp [h]
        rw [he, List.singleton_append, endsWithSave_cons _ _ (ccSteps_ne_nil k (c + 1))]
        exact ih (c + 1)
      · have he : (if (c + 1) % 10 == 0 then [ContinuousIntegration.Act.save] else [])
            = ([] : List ContinuousIntegration.Act) := by simp [h]
        rw [he, List.nil_append]
        exact ih (c + 1)

/-- Counterexample to claim C2: a run of continious_integration.py whose
first repository fails with a non-rate-limit GithubException reaches the
second repository without any intervening write of the CSV. -/
theorem claim_C2_counterexample :
    ContinuousIntegration.ciTrace [.err false, .ok none]
        = [.probeFail 0, .probeOk 1, .save, .save]
      ∧ ContinuousIntegration.savedBetweenProbes false
          (ContinuousIntegration.ciTrace [.err false, .ok none]) = false := by
  constructor
  · rfl
  · decide

/-- Claim C2 (amended): continious_integration.py writes the accumulated
CSV after each SUCCESSFULLY probed repository before the next one is
probed, and once more after the loop; on a failed probe it continues to
the next repository without saving.  check_contributing_conduct.py writes
the CSV only after every 10th completed repository
(`completed / 10` intermediate writes for `n` completions) plus one
final write after the loop. -/
theorem claim_C2_checkpointing :
    (∀ (outs : List ContinuousIntegration.RowOutcome) (i : Nat),
        ContinuousIntegration.savedAfterSuccesses false
          (ContinuousIntegration.ciSteps i outs) = true)
    ∧ (∀ outs, ContinuousIntegration.endsWithSave (ContinuousIntegration.ciTrace outs) = true)
    ∧ (∀ n, ContinuousIntegration.countSaves (CheckContributing.ccTrace n) = n / 10 + 1)
    ∧ (∀ n, ContinuousIntegration.endsWithSave (CheckContributing.ccTrace n) = true) := by
  refine ⟨fun outs i => savedAfterSuccesses_ciSteps outs i,
    fun outs => endsWithSave_ciSteps outs 0, fun n => ?_, fun n => endsWithSave_ccSteps n 0⟩
  have := countSaves_ccSteps n 0
  simpa [CheckContributing.ccTrace] using this

/-! Claim C3. -/

/-- When every row is already filled, `_submit_tasks` submits nothing but
still makes one rate-limit API call per row. -/
theorem submitGo_all_filled (rows : List CheckContributing.CCRow)
    (h : ∀ r ∈ rows, CheckContributing.rowFilled r = true) :
    ∀ i, CheckContributing.submitGo i rows = (rows.length, []) := by
  induction rows with
  | nil => intro i; rfl
  | cons r rest ih =>
      intro i
      have hr := h r (by simp)
      have hrest : ∀ x ∈ rest, CheckContributing.rowFilled x = true :=
        fun x hx => h x (by simp [hx])
      simp [CheckContributing.submitGo, hr, ih hrest (i + 1)]

/-- Counterexample to claim C3: on a one-row CSV whose result columns are
both already non-null, `_submit_tasks` still performs one GitHub API call
(the `api.rate_limit.get()` of `check_rate_limit`), so the number of API
calls is not zero. -/
theorem claim_C3_counterexample :
    CheckContributing.submit_tasks [⟨some true, some true⟩] = (1, [])
      ∧ ¬(CheckContributing.submit_tasks [⟨some true, some true⟩]).1 = 0 := by
  constructor
  · rfl
  · decide

/-- Claim C3 (amended): re-running on a CSV where every row already has
non-null values in both result columns submits no repository task (so no
content API call is made), but the script still performs exactly one
rate-limit API call per row rather than zero API calls. -/
theorem claim_C3_idempotent_skip (rows : List CheckContributing.CCRow)
    (h : ∀ r ∈ rows, CheckContributing.rowFilled r = true) :
    CheckContributing.submit_tasks rows = (rows.length, []) :=
  submitGo_all_filled rows h 0

/-- Witness for claim C3 at a concrete filled CSV. -/
theorem claim_C3_witness :
    CheckContributing.submit_tasks [⟨some true, some false⟩, ⟨some false, some true⟩]
      = (2, []) :=
  claim_C3_idempotent_skip [⟨some true, some false⟩, ⟨some false, some true⟩] (by decide)

/-! Claim C6. -/

/-- Claim C6: every HTTP error other than quota exhaustion is not retried:
`fetch_readme_content` logs and returns the empty string at once (no
sleep, no further attempt), `get_repo_metadata` returns `None`, and the
row loop of `process_csv` stores the sentinel for the failed row and
keeps processing every other row, so no per-row failure aborts the
batch. -/
theorem claim_C6_no_retry_on_other_errors :
    (∀ (st : Nat) (rem : Option String) (rest : List ReadmeContent.FetchOutcome),
        ¬(st = 403 ∧ rem = some "0") →
        ReadmeContent.fetch_readme_content (.httpError st rem :: rest) = some ([], ""))
    ∧ (∀ rest : List ReadmeContent.FetchOutcome,
        ReadmeContent.fetch_readme_content (.otherErr :: rest) = some ([], ""))
    ∧ (∀ (μ : Type) (rest : List (EnrichRepoData.MetaOutcome μ)),
        EnrichRepoData.get_repo_metadata (.otherErr :: rest) = some ([], none))
    ∧ (∀ (pre post : List ReadmeContent.RowInput) (row : ReadmeContent.RowInput),
        ReadmeContent.process_row row = "" →
        ReadmeContent.process_csv_rows (pre ++ row :: post)
          = ReadmeContent.process_csv_rows pre ++ "" :: ReadmeContent.process_csv_rows post)
    ∧ (∀ rows : List ReadmeContent.RowInput,
        (ReadmeContent.process_csv_rows rows).length = rows.length) := by
  refine ⟨?_, ?_, ?_, ?_, ?_⟩
  · intro st rem rest h
    have hc : (st == 403 && rem == some "0") = false := by
      rcases Decidable.em (st = 403) with h1 | h1
      · have h2 : ¬rem = some "0" := fun hr => h ⟨h1, hr⟩
        simp [h1, h2]
      · simp [h1]
    simp [ReadmeContent.fetch_readme_content, hc]
  · intro rest
    rfl
  · intro μ rest
    rfl
  · intro pre post row h
    simp [ReadmeContent.process_csv_rows, h]
  · intro rows
    simp [ReadmeContent.process_csv_rows]

/-- Witness for claim C6: a 404 yields the sentinel with no sleep, and a
failed row contributes exactly its sentinel cell to the batch. -/
theorem claim_C6_witness :
    ReadmeContent.fetch_readme_content [.httpError 404 none] = some ([], "")
      ∧ ReadmeContent.process_csv_rows
          ([] ++ (⟨Py.pstr "https://example.org/x", []⟩ : ReadmeContent.RowInput) :: [])
          = [] ++ "" :: [] :=
  ⟨claim_C6_no_retry_on_other_errors.1 404 none [] (by simp),
   claim_C6_no_retry_on_other_errors.2.2.2.1 [] []
     ⟨Py.pstr "https://example.org/x", []⟩ (by decide)⟩

/-! Claim C7. -/

/-- Counterexample to claim C7: continious_integration.py reads
`GITHUB_TOKEN` without checking it; with no token present it still probes
the repositories of the CSV instead of terminating before any row. -/
theorem claim_C7_counterexample :
    ¬ContinuousIntegration.countProbes
        (ContinuousIntegration.ciMain none [.ok none]) = 0 := by
  decide

/-- Claim C7 (amended): enrich_repo_data.py and
check_contributing_conduct.py terminate with a ValueError before any row
is processed when the token (or user) is missing or empty, but
continious_integration.py never validates its token: its row loop is the
same with or without one. -/
theorem claim_C7_startup_credentials :
    (∀ tok, EnrichRepoData.falsyEnv tok = true →
        EnrichRepoData.tokenStartup tok
          = .error "GitHub token not found. Please set GITHUB_TOKEN in the .env file.")
    ∧ (∀ u t, EnrichRepoData.falsyEnv u = true ∨ EnrichRepoData.falsyEnv t = true →
        CheckContributing.load_credentials u t
          = .error "GITHUB_USER or GITHUB_TOKEN not found. Please ensure the .env file is properly configured.")
    ∧ (∀ (tok : Option String) (outs : List ContinuousIntegration.RowOutcome),
        ContinuousIntegration.ciMain tok outs = ContinuousIntegration.ciTrace outs) := by
  refine ⟨?_, ?_, fun tok outs => rfl⟩
  · intro tok h
    simp [EnrichRepoData.tokenStartup, h]
  · intro u t h
    match u, t with
    | none, _ => rfl
    | some a, none => rfl
    | some a, some b =>
        simp only [EnrichRepoData.falsyEnv] at h
        rcases h with h | h <;> simp [CheckContributing.load_credentials, h]

/-- Witness for claim C7: both credential checks fail on concretely
missing values. -/
theorem claim_C7_witness :
    EnrichRepoData.tokenStartup none
        = .error "GitHub token not found. Please set GITHUB_TOKEN in the .env file."
      ∧ CheckContributing.load_credentials (some "user") (some "")
        = .error "GITHUB_USER or GITHUB_TOKEN not found. Please ensure the .env file is properly configured." :=
  ⟨claim_C7_startup_credentials.1 none (by decide),
   claim_C7_startup_credentials.2.1 (some "user") (some "") (Or.inr (by decide))⟩

/-! Claim C10. -/

/-- Claim C10: the crawler writes `has_cmake_pinned_req_deps` from the
OPTIONAL dependency list and `has_cmake_pinned_opt_deps` from the
REQUIRED dependency list — the two pinned-dependency columns are computed
from the swapped lists, each true exactly when some dependency of that
list has a version other than "Any". -/
theorem claim_C10_pinned_columns_swapped (data : CmakeCrawler.CmakeResult) :
    ((CmakeCrawler.setCrawlerRowFlags data).has_cmake_pinned_req_deps = true
        ↔ ∃ d ∈ data.opt_dependencies, d.version ≠ "Any")
      ∧ ((CmakeCrawler.setCrawlerRowFlags data).has_cmake_pinned_opt_deps = true
        ↔ ∃ d ∈ data.dependencies, d.version ≠ "Any") := by
  constructor <;>
    simp [CmakeCrawler.setCrawlerRowFlags, CmakeCrawler.has_pinned_dependency,
      List.any_eq_true]

/-! Claim C4. -/

/-- A case-insensitive match somewhere in the text is in particular a
case-insensitive match of a suffix obtained by dropping `i` characters. -/
theorem searchSubCI_of_prefixCI_drop (kw : List Char) :
    ∀ (i : Nat) (text : List Char), PyRe.prefixCI kw (text.drop i) = true →
      PyRe.searchSubCI kw text = true := by
  intro i
  induction i with
  | zero =>
      intro text h
      cases text with
      | nil => simpa [PyRe.searchSubCI] using h
      | cons c rest => simp [PyRe.searchSubCI, List.drop] at h ⊢; exact Or.inl h
  | succ k ih =>
      intro text h
      cases text with
      | nil => simpa [PyRe.searchSubCI] using h
      | cons c rest =>
          have := ih rest (by simpa using h)
          simp [PyRe.searchSubCI, this]

/-- A word-boundary match implies a substring match. -/
theorem searchSubCI_of_searchWordCI (kw text : List Char)
    (h : PyRe.searchWordCI kw text = true) : PyRe.searchSubCI kw text = true := by
  rw [PyRe.searchWordCI, List.any_eq_true] at h
  obtain ⟨i, _, hi⟩ := h
  have hp : PyRe.prefixCI kw (text.drop i) = true := by
    rcases Bool.and_eq_true_iff.mp hi with ⟨h1, _⟩
    rcases Bool.and_eq_true_iff.mp h1 with ⟨h2, _⟩
    exact h2
  exact searchSubCI_of_prefixCI_drop kw i text hp

/-- `check_keywords` is true exactly when `search_keywords` with the same
keyword list is non-empty: the two scripts implement the same
word-boundary match. -/
theorem check_keywords_eq_search_nonempty (text : String) (kws : List String) :
    ReadmeEval.check_keywords text kws
      = !(KeywordsEvalReadme.search_keywords text kws).isEmpty := by
  induction kws with
  | nil => rfl
  | cons k ks ih =>
      have e1 : ReadmeEval.check_keywords text (k :: ks)
          = (PyRe.searchWordCI k.data text.data || ReadmeEval.check_keywords text ks) := by
        simp [ReadmeEval.check_keywords]
      have e2 : KeywordsEvalReadme.search_keywords text (k :: ks)
          = if PyRe.searchWordCI k.data text.data
            then k :: KeywordsEvalReadme.search_keywords text ks
            else KeywordsEvalReadme.search_keywords text ks := by
        simp [KeywordsEvalReadme.search_keywords, List.filter_cons]
      cases hp : PyRe.searchWordCI k.data text.data <;>
        simp [e1, e2, hp, ih]

/-- Counterexample to claim C4: the word-boundary searchers reject "test"
inside "Testing" (no boundary between "t" and "i"), and the substring
searcher of test_keywords.py accepts "test" inside "attest". -/
theorem claim_C4_counterexample :
    KeywordsEvalReadme.search_keywords "Testing" ["test"] = []
      ∧ "test" ∈ TestKeywords.contains_keywords "attest" := by
  constructor
  · decide
  · decide

/-- Claim C4 (amended): `search_keywords` and `check_keywords` match
case-insensitively on word boundaries, so keyword "test" matches neither
"Testing" nor "attest" while "testing" matches "Testing";
`contains_keywords` matches case-insensitive SUBSTRINGS, so "test"
matches both "Testing" and "attest".  Every word-boundary match is in
particular a substring match, and the two word-boundary scripts agree. -/
theorem claim_C4_keyword_matching :
    (∀ (kw text : String), PyRe.searchWordCI kw.data text.data = true →
        PyRe.searchSubCI kw.data text.data = true)
    ∧ (∀ (text : String) (kws : List String),
        ReadmeEval.check_keywords text kws
          = !(KeywordsEvalReadme.search_keywords text kws).isEmpty)
    ∧ KeywordsEvalReadme.search_keywords "Testing" ["test", "testing"] = ["testing"]
    ∧ KeywordsEvalReadme.search_keywords "attest" ["test"] = []
    ∧ ReadmeEval.check_keywords "attest" ["test"] = false
    ∧ ReadmeEval.check_keywords "Penetration TESTING matters" ["penetration testing"] = true
    ∧ TestKeywords.contains_keywords "Testing" = ["test", "testing"]
    ∧ TestKeywords.contains_keywords "attest" = ["test"] := by
  refine ⟨fun kw text h => searchSubCI_of_searchWordCI kw.data text.data h,
    check_keywords_eq_search_nonempty, ?_, ?_, ?_, ?_, ?_, ?_⟩ <;> decide

/-- Witness for claim C4 at a concrete word-boundary match. -/
theorem claim_C4_witness :
    PyRe.searchSubCI ("testing".data) ("Unit Testing guide".data) = true :=
  claim_C4_keyword_matching.1 "testing" "Unit Testing guide" (by decide)

/-! Claim C5. -/

/-- Counterexample to claim C5: `is_github_url` of readme_content.py
requires the literal prefix "https://github.com/", so the accepted form
with a "www." host prefix makes `get_owner_repo_from_url` return
`(None, None)` instead of the owner/repo pair. -/
theorem claim_C5_counterexample :
    ReadmeContent.get_owner_repo_from_url
        (Py.pstr "https://www.github.com/octocat/Hello-World") = (none, none)
      ∧ ReadmeContent.is_github_url
          (Py.pstr "https://www.github.com/octocat/Hello-World") = false := by
  constructor
  · decide
  · decide

/-- Claim C5 (amended): for a known repository URL,
`owner_repo_from_url` of test_keywords.py extracts the owner/repo pair
from all four accepted forms (with or without "www.", with or without a
trailing ".git"), and `normalize_github_url` accepts all four; the
readme_content.py pair `is_github_url`/`get_owner_repo_from_url` extracts
the pair only from the two forms without "www." and yields `(None, None)`
on the "www." forms. -/
theorem claim_C5_owner_repo_extraction :
    TestKeywords.owner_repo_from_url "https://github.com/octocat/Hello-World"
        = some ("octocat", "Hello-World")
      ∧ TestKeywords.owner_repo_from_url "https://www.github.com/octocat/Hello-World"
        = some ("octocat", "Hello-World")
      ∧ TestKeywords.owner_repo_from_url "https://github.com/octocat/Hello-World.git"
        = some ("octocat", "Hello-World")
      ∧ TestKeywords.owner_repo_from_url "https://www.github.com/octocat/Hello-World.git"
        = some ("octocat", "Hello-World")
      ∧ TestKeywords.normalize_github_url (Py.pstr "https://github.com/octocat/Hello-World")
        = some "https://github.com/octocat/Hello-World"
      ∧ TestKeywords.normalize_github_url
          (Py.pstr "https://www.github.com/octocat/Hello-World.git")
        = some "https://www.github.com/octocat/Hello-World.git"
      ∧ ReadmeContent.get_owner_repo_from_url
          (Py.pstr "https://github.com/octocat/Hello-World")
        = (some "octocat", some "Hello-World")
      ∧ ReadmeContent.get_owner_repo_from_url
          (Py.pstr "https://github.com/octocat/Hello-World.git")
        = (some "octocat", some "Hello-World")
      ∧ ReadmeContent.get_owner_repo_from_url
          (Py.pstr "https://www.github.com/octocat/Hello-World.git")
        = (none, none) := by
  refine ⟨?_, ?_, ?_, ?_, ?_, ?_, ?_, ?_, ?_⟩ <;> decide

/-! Claim C8. -/

/-- `lineStep` never resets the GTest flag. -/
theorem lineStep_gtest_mono (st : CmakeCrawler.CmakeScan) (line : String)
    (h : st.uses_gtest = true) : (CmakeCrawler.lineStep st line).uses_gtest = true := by
  unfold CmakeCrawler.lineStep
  cases hm : CmakeCrawler.searchFindPackage line.data with
  | none => simpa using h
  | some m =>
      simp only []
      split_ifs <;> simp [h]

/-- `fileStep` never resets the GTest flag. -/
theorem fileStep_gtest_mono (lines : List String) :
    ∀ st : CmakeCrawler.CmakeScan, st.uses_gtest = true →
      (CmakeCrawler.fileStep st lines).uses_gtest = true := by
  induction lines with
  | nil => intro st h; exact h
  | cons l rest ih =>
      intro st h
      exact ih (CmakeCrawler.lineStep st l) (lineStep_gtest_mono st l h)

/-- Folding further files never resets the GTest flag. -/
theorem foldl_fileStep_gtest_mono (files : List (List String)) :
    ∀ st : CmakeCrawler.CmakeScan, st.uses_gtest = true →
      (files.foldl CmakeCrawler.fileStep st).uses_gtest = true := by
  induction files with
  | nil => intro st h; exact h
  | cons f rest ih =>
      intro st h
      exact ih (CmakeCrawler.fileStep st f) (fileStep_gtest_mono f st h)

/-- Processing the file holding the single GTest directive sets the flag,
whatever the accumulator held before. -/
theorem fileStep_gtest_directive (st : CmakeCrawler.CmakeScan) :
    (CmakeCrawler.fileStep st ["find_package(GTest REQUIRED)"]).uses_gtest = true := by
  have hm : CmakeCrawler.searchFindPackage ("find_package(GTest REQUIRED)".data)
      = some ⟨"GTest", none, true⟩ := by decide
  have hg : (PyStr.pyLower "GTest" == "gtest") = true := by decide
  have hc : (PyStr.pyLower "GTest" == "catch2") = false := by decide
  simp [CmakeCrawler.fileStep, CmakeCrawler.lineStep, hm, hg, hc]

/-- The GTest flag of the whole scan is set once some scanned file is the
single GTest directive. -/
theorem foldl_fileStep_gtest_of_mem (files : List (List String))
    (h : ["find_package(GTest REQUIRED)"] ∈ files) :
    ∀ st : CmakeCrawler.CmakeScan,
      (files.foldl CmakeCrawler.fileStep st).uses_gtest = true := by
  induction files with
  | nil => cases h
  | cons f rest ih =>
      intro st
      rcases List.mem_cons.mp h with hf | hf
      · subst hf
        exact foldl_fileStep_gtest_mono rest _ (fileStep_gtest_directive st)
      · exact ih hf (CmakeCrawler.fileStep st f)

/-- Counterexample to claim C8: a file list containing the single GTest
directive together with a second file pinning a GTest version yields TWO
entries named GTest in the required-dependencies list, not exactly one. -/
theorem claim_C8_counterexample :
    ["find_package(GTest REQUIRED)"]
        ∈ ([["find_package(GTest REQUIRED)"], ["find_package(GTest 1.0 REQUIRED)"]]
            : List (List String))
      ∧ (CmakeCrawler.parse_cmake_files
            [["find_package(GTest REQUIRED)"], ["find_package(GTest 1.0 REQUIRED)"]]
          ).dependencies.countP (fun d => d.name == "GTest") = 2
      ∧ ¬(CmakeCrawler.parse_cmake_files
            [["find_package(GTest REQUIRED)"], ["find_package(GTest 1.0 REQUIRED)"]]
          ).dependencies.countP (fun d => d.name == "GTest") = 1 := by
  refine ⟨?_, ?_, ?_⟩ <;> decide

/-- Claim C8 (amended): whenever the scanned files include one whose
content is the single directive `find_package(GTest REQUIRED)`, the
parser reports `uses_gtest = true`; and on the file list consisting of
that file alone, the result is exactly one required dependency, named
GTest with version "Any", no optional dependency, and no Catch2. -/
theorem claim_C8_gtest_directive (files : List (List String))
    (h : ["find_package(GTest REQUIRED)"] ∈ files) :
    (CmakeCrawler.parse_cmake_files files).uses_gtest = true
      ∧ CmakeCrawler.parse_cmake_files [["find_package(GTest REQUIRED)"]]
        = ⟨true, [⟨"GTest", "Any"⟩], [], true, false⟩ := by
  constructor
  · show (CmakeCrawler.parse_cmake_files files).uses_gtest = true
    unfold CmakeCrawler.parse_cmake_files
    exact foldl_fileStep_gtest_of_mem files h ⟨[], [], false, false⟩
  · decide

/-- Witness for claim C8 at the singleton file list. -/
theorem claim_C8_witness :
    (CmakeCrawler.parse_cmake_files [["find_package(GTest REQUIRED)"]]).uses_gtest = true :=
  (claim_C8_gtest_directive [["find_package(GTest REQUIRED)"]] (by simp)).1

/-! Claim C9. -/

/-- Counterexample to claim C9: the string "https://github.com" is not a
GitHub repository URL, yet `analyze_repo` of
check_folder_name_conventions.py raises an uncaught IndexError on it (it
contains "github.com", so the guard is passed, but "github.com/" does not
occur, so `url.split("github.com/")[1]` is out of range) instead of
returning a null result. -/
theorem claim_C9_counterexample :
    CheckFolderNames.analyze_repo_url "https://github.com" = .error .indexError
      ∧ PyUrl.containsSub ("github.com".data) ("https://github.com".data) = true := by
  refine ⟨rfl, by decide⟩

/-- Claim C9 (amended): `is_github_url`, `get_owner_repo_from_url` and
`normalize_github_url` return their null results, without raising, on
every non-string value and on every string that is not a GitHub URL
(wrong prefix resp. wrong netloc), and `analyze_repo` returns its empty
result for every URL not containing "github.com"; but `analyze_repo`
raises IndexError on strings containing "github.com" without a following
slash. -/
theorem claim_C9_non_github_null :
    (∀ r : String,
        ReadmeContent.is_github_url (.pother r) = false
          ∧ ReadmeContent.get_owner_repo_from_url (.pother r) = (none, none)
          ∧ TestKeywords.normalize_github_url (.pother r) = none)
    ∧ (ReadmeContent.is_github_url .nan = false
        ∧ ReadmeContent.get_owner_repo_from_url .nan = (none, none)
        ∧ TestKeywords.normalize_github_url .nan = none)
    ∧ (∀ s : String, PyStr.pyStartsWith s "https://github.com/" = false →
        ReadmeContent.is_github_url (.pstr s) = false
          ∧ ReadmeContent.get_owner_repo_from_url (.pstr s) = (none, none))
    ∧ (∀ s : String,
        (PyUrl.urlparse (PyStr.pyStrip s)).netloc ∉ TestKeywords.GITHUB_NETLOCS →
        TestKeywords.normalize_github_url (.pstr s) = none)
    ∧ (∀ url : String, PyUrl.containsSub ("github.com".data) url.data = false →
        CheckFolderNames.analyze_repo_url url = .ok .skipNonGithub) := by
  refine ⟨fun r => ⟨rfl, rfl, rfl⟩, ⟨rfl, rfl, rfl⟩, ?_, ?_, ?_⟩
  · intro s h
    refine ⟨?_, ?_⟩
    · simpa [ReadmeContent.is_github_url] using h
    · simp [ReadmeContent.get_owner_repo_from_url, ReadmeContent.is_github_url, h]
  · intro s h
    by_cases h0 : PyStr.pyStrip s == ""
    · simp [TestKeywords.normalize_github_url, h0]
    · by_cases h1 : ((PyUrl.urlparse (PyStr.pyStrip s)).scheme == "http"
          || (PyUrl.urlparse (PyStr.pyStrip s)).scheme == "https")
      · simp [TestKeywords.normalize_github_url, h0, h1, h]
      · simp [TestKeywords.normalize_github_url, h0, h1]
  · intro url h
    simp [CheckFolderNames.analyze_repo_url, h]

/-- Witness for claim C9 at a concrete non-GitHub URL. -/
theorem claim_C9_witness :
    (ReadmeContent.is_github_url (.pstr "https://gitlab.com/a/b") = false
        ∧ ReadmeContent.get_owner_repo_from_url (.pstr "https://gitlab.com/a/b") = (none, none))
      ∧ TestKeywords.normalize_github_url (.pstr "https://gitlab.com/a/b") = none
      ∧ CheckFolderNames.analyze_repo_url "https://gitlab.com/a/b" = .ok .skipNonGithub :=
  ⟨claim_C9_non_github_null.2.2.1 "https://gitlab.com/a/b" (by decide),
   claim_C9_non_github_null.2.2.2.1 "https://gitlab.com/a/b" (by decide),
   claim_C9_non_github_null.2.2.2.2 "https://gitlab.com/a/b" (by decide)⟩
